import Mathlib

/-!
Verification development for the Huawei LTE band-optimization agent
(`data_logger.py`, `ai_agent.py`, `config.py`).  The Python source is
shallowly embedded: floating-point arithmetic is modelled by exact
rationals (`ℚ`), timestamps by seconds since the epoch (`ℤ`, with
`hour = t / 3600 % 24`), and the few quantities whose source computation
takes a square root (standard deviations) by real numbers (`ℝ`).
-/

namespace LteAgent

/-! ## Scoring engine (`data_logger.py` lines 102-132, `ai_agent.py` lines 223-283) -/

/-- Spec-side clamp to the unit interval, used to state the claimed formula
for the bandwidth score.  The source writes it inline as
`max(0, min(1, x))`. -/
def clamp01 (x : ℚ) : ℚ := max 0 (min 1 x)

/-- Model of `DataLogger._calculate_bandwidth_score` (`data_logger.py` lines 124-132):
`sinr_score = max(0, min(1, (sinr + 10) / 30))`,
`rsrp_score = max(0, min(1, (rsrp + 140) / 60))`,
result `sinr_score * 0.7 + rsrp_score * 0.3`. -/
def calculate_bandwidth_score (sinr rsrp : ℚ) : ℚ :=
  max 0 (min 1 ((sinr + 10) / 30)) * 0.7 + max 0 (min 1 ((rsrp + 140) / 60)) * 0.3

/-- Quality classes returned by `_calculate_signal_quality`. -/
inductive QualityClass where
  | excellent
  | good
  | fair
  | poor
deriving DecidableEq, Repr

/-- The weighted quality score computed inside
`DataLogger._calculate_signal_quality` (`data_logger.py` lines 102-112):
`rsrp_score = max(0, (rsrp + 140) / 60)`, `rsrq_score = max(0, (rsrq + 25) / 15)`,
`sinr_score = max(0, (sinr + 10) / 30)`, combined as
`rsrp_score * 0.4 + rsrq_score * 0.3 + sinr_score * 0.3`.
Only the lower bound is clamped here. -/
def quality_score (rsrp rsrq sinr : ℚ) : ℚ :=
  max 0 ((rsrp + 140) / 60) * 0.4 + max 0 ((rsrq + 25) / 15) * 0.3 +
    max 0 ((sinr + 10) / 30) * 0.3

/-- The threshold cascade at the end of `_calculate_signal_quality`
(`data_logger.py` lines 114-122): `>= 0.8` excellent, `>= 0.6` good,
`>= 0.4` fair, else poor. -/
def classify (q : ℚ) : QualityClass :=
  if q ≥ 0.8 then .excellent
  else if q ≥ 0.6 then .good
  else if q ≥ 0.4 then .fair
  else .poor

/-- Model of `DataLogger._calculate_signal_quality` (`data_logger.py` lines 102-122):
the weighted score followed by the threshold cascade.
`AIAutomationAgent._get_signal_quality` (`ai_agent.py` lines 267-283) is a
verbatim copy of the same computation. -/
def calculate_signal_quality (rsrp rsrq sinr : ℚ) : QualityClass :=
  classify (quality_score rsrp rsrq sinr)

/-! ## Data model -/

/-- Model of the `SignalMetrics` dataclass (`huawei_router.py`): one observation. -/
structure SignalMetrics where
  timestamp : ℤ
  band : String
  rsrp : ℚ
  rsrq : ℚ
  sinr : ℚ
  rssi : ℚ
  cell_id : String
  plmn : String
deriving DecidableEq, Repr

/-- Hour-of-day of an epoch-seconds timestamp (model of `datetime.hour`). -/
def hourOf (t : ℤ) : ℤ := t / 3600 % 24

/-- Model of `AIAutomationAgent._calculate_current_score` (`ai_agent.py` lines
223-227): the bandwidth-score formula applied to the current sample. -/
def calculate_current_score (m : SignalMetrics) : ℚ :=
  max 0 (min 1 ((m.sinr + 10) / 30)) * 0.7 + max 0 (min 1 ((m.rsrp + 140) / 60)) * 0.3

/-- One persisted record: the CSV row (equivalently the JSON record) written
by `DataLogger.log_metrics` (`data_logger.py` lines 50-81), with the two
derived columns. -/
structure Row where
  timestamp : ℤ
  band : String
  rsrp : ℚ
  rsrq : ℚ
  sinr : ℚ
  rssi : ℚ
  cell_id : String
  plmn : String
  signal_quality : QualityClass
  bandwidth_score : ℚ
deriving DecidableEq, Repr

/-- The record `log_metrics` builds from a sample (`data_logger.py` lines
46-62): raw fields plus `_calculate_signal_quality` and
`_calculate_bandwidth_score`. -/
def logRow (m : SignalMetrics) : Row :=
  ⟨m.timestamp, m.band, m.rsrp, m.rsrq, m.sinr, m.rssi, m.cell_id, m.plmn,
    calculate_signal_quality m.rsrp m.rsrq m.sinr,
    calculate_bandwidth_score m.sinr m.rsrp⟩

/-! ## List aggregation helpers (model of the pandas operations) -/

/-- Arithmetic mean of a list of rationals (`np.mean` / `Series.mean`). -/
def meanQ (xs : List ℚ) : ℚ := xs.sum / xs.length

/-- Distinct values in first-appearance order (`Series.unique`). -/
def dedupFirst (seen : List String) : List String → List String
  | [] => []
  | a :: as =>
    if seen.contains a then dedupFirst seen as else a :: dedupFirst (a :: seen) as

/-- Code-point lexicographic order on character lists, as Python compares
strings. -/
def charListLe : List Char → List Char → Bool
  | [], _ => true
  | _ :: _, [] => false
  | a :: as, b :: bs =>
    if a.toNat < b.toNat then true
    else if b.toNat < a.toNat then false
    else charListLe as bs

/-- Code-point lexicographic order on strings. -/
def strLe (a b : String) : Bool := charListLe a.data b.data

/-- Insertion into a `strLe`-sorted list. -/
def insertStr (a : String) : List String → List String
  | [] => [a]
  | b :: bs => if strLe a b then a :: b :: bs else b :: insertStr a bs

/-- Insertion sort by `strLe` (model of the sorted group keys produced by
`DataFrame.groupby`). -/
def sortStr : List String → List String
  | [] => []
  | a :: as => insertStr a (sortStr as)

/-- Step function of `idxmax`: keep the current best, replace it only on a
strictly larger value, so the first maximum in list order wins. -/
def maxStep {α : Type} (f : α → ℚ) (b a : α) : α := if f b < f a then a else b

/-- Model of `Series.idxmax`: index of the first occurrence of the maximum value. -/
def argmaxBy {α : Type} (f : α → ℚ) : List α → Option α
  | [] => none
  | x :: xs => some (xs.foldl (maxStep f) x)

/-- Step function of `idxmin`: keep the current best, replace it only on a
strictly smaller value. -/
def minStep {α : Type} (f : α → ℚ) (b a : α) : α := if f a < f b then a else b

/-- Model of `Series.idxmin`: index of the first occurrence of the minimum value. -/
def argminBy {α : Type} (f : α → ℚ) : List α → Option α
  | [] => none
  | x :: xs => some (xs.foldl (minStep f) x)

/-! ## MetricStore summary (`data_logger.py` lines 156-191) -/

/-- The cutoff `datetime.now() - pd.Timedelta(hours=hours)`. -/
def cutoffTime (now : ℤ) (hours : ℕ) : ℤ := now - hours * 3600

/-- Model of the filter `df[df.timestamp >= cutoff_time]`: the summary keeps every row whose
timestamp is at least the cutoff (no upper bound is applied). -/
def recentRows (rows : List Row) (now : ℤ) (hours : ℕ) : List Row :=
  rows.filter fun r => cutoffTime now hours ≤ r.timestamp

/-- Model of `recent_data.band.unique().tolist()`. -/
def bandsTested (rows : List Row) : List String :=
  dedupFirst [] (rows.map fun r => r.band)

/-- The sorted distinct band keys over which `groupby(band)` aggregates. -/
def groupKeys (rows : List Row) : List String := sortStr (bandsTested rows)

/-- The `bandwidth_score` column restricted to one band. -/
def bandScores (rows : List Row) (b : String) : List ℚ :=
  (rows.filter fun r => r.band = b).map fun r => r.bandwidth_score

/-- Model of the per-band mean of the `bandwidth_score` column produced by
`groupby(band).mean()`. -/
def bandMean (rows : List Row) (b : String) : ℚ := meanQ (bandScores rows b)

/-- The summary record built by `get_metrics_summary`
(`data_logger.py` lines 170-185). -/
structure MetricsSummary where
  total_records : ℕ
  time_range : String
  bands_tested : List String
  avg_rsrp : ℚ
  avg_rsrq : ℚ
  avg_sinr : ℚ
  avg_rssi : ℚ
  avg_bandwidth_score : ℚ
  signal_quality_distribution : QualityClass → ℕ
  best_performing_band : String
  worst_performing_band : String

/-- Model of `DataLogger.get_metrics_summary` (`data_logger.py` lines 156-191):
filter the log to rows with `timestamp >= now - hours`, return `None`
(the empty dict) if nothing remains, otherwise the aggregate record.
`best/worst_performing_band` are `idxmax`/`idxmin` of the per-band mean
bandwidth score. -/
def get_metrics_summary (rows : List Row) (now : ℤ) (hours : ℕ) :
    Option MetricsSummary :=
  let recent := recentRows rows now hours
  if recent.isEmpty then none
  else
    some
      { total_records := recent.length
        time_range := "Last " ++ toString hours ++ " hours"
        bands_tested := bandsTested recent
        avg_rsrp := meanQ (recent.map fun r => r.rsrp)
        avg_rsrq := meanQ (recent.map fun r => r.rsrq)
        avg_sinr := meanQ (recent.map fun r => r.sinr)
        avg_rssi := meanQ (recent.map fun r => r.rssi)
        avg_bandwidth_score := meanQ (recent.map fun r => r.bandwidth_score)
        signal_quality_distribution := fun q =>
          (recent.filter fun r => r.signal_quality = q).length
        best_performing_band :=
          (argmaxBy (bandMean recent) (groupKeys recent)).getD ""
        worst_performing_band :=
          (argminBy (bandMean recent) (groupKeys recent)).getD "" }

/-- Record count of an optional summary (`0` for the empty result). -/
def total_of (o : Option MetricsSummary) : ℕ :=
  match o with
  | none => 0
  | some s => s.total_records

/-- Historical mean bandwidth score of an optional summary. -/
def avg_of (o : Option MetricsSummary) : ℚ :=
  match o with
  | none => 0
  | some s => s.avg_bandwidth_score

/-- Best-performing band of an optional summary (`""` for the empty result). -/
def best_of (o : Option MetricsSummary) : String :=
  match o with
  | none => ""
  | some s => s.best_performing_band

/-! ## Decision engine (`ai_agent.py` lines 159-250) -/

/-- Model of the configured auto-switch threshold (`config.py`): `0.8`. -/
def auto_switch_threshold : ℚ := 0.8

/-- Model of `AIAutomationAgent._check_band_switch` (`ai_agent.py` lines 201-221),
reduced to its decision: fetch the 1-hour summary; if missing, do nothing;
otherwise trigger the smart switch exactly when the current score is
strictly below `historical_avg * degradation_threshold`. -/
def check_band_switch (rows : List Row) (now : ℤ) (m : SignalMetrics) : Bool :=
  match get_metrics_summary rows now 1 with
  | none => false
  | some s =>
    decide (calculate_current_score m < s.avg_bandwidth_score * auto_switch_threshold)

/-- The per-sample step of the monitoring loop (`ai_agent.py` lines
166-182): `_check_band_switch` runs only when `auto_switch_enabled` is set.
The returned boolean says whether `_smart_band_switch` is invoked. -/
def onSample (auto_switch_enabled : Bool) (rows : List Row) (now : ℤ)
    (m : SignalMetrics) : Bool :=
  auto_switch_enabled && check_band_switch rows now m

/-- Model of `AIAutomationAgent._smart_band_switch` (`ai_agent.py` lines 229-250):
fetch the 6-hour summary; if missing, no command.  Otherwise take
`best_performing_band`; if it is truthy and differs from the currently
reported band, issue exactly one `set_lte_band` command for it.  The result
lists the band-set commands issued. -/
def smart_band_switch (rows : List Row) (now : ℤ) (current : Option String) :
    List String :=
  match get_metrics_summary rows now 6 with
  | none => []
  | some s =>
    let best := s.best_performing_band
    if best ≠ "" ∧ some best ≠ current then [best] else []

/-! ## Peak-hour optimization (`ai_agent.py` lines 306-407) -/

/-- One configured peak window (the peak-hours entries of `config.py`), with the
minute components that `optimize_for_peak_hours` parses and then ignores
(the code parses the text before the colon as an integer hour). -/
structure PeakPeriod where
  start_hour : ℕ
  start_minute : ℕ
  end_hour : ℕ
  end_minute : ℕ
deriving DecidableEq, Repr

/-- The configured windows: morning `07:00-09:00`, evening `17:00-19:00`. -/
def default_peak_periods : List PeakPeriod := [⟨7, 0, 9, 0⟩, ⟨17, 0, 19, 0⟩]

/-- The peak test in `optimize_for_peak_hours` (`ai_agent.py` lines
315-324): some window has `start_hour <= current_hour <= end_hour`,
both ends inclusive, minutes truncated. -/
def is_peak_hour (periods : List PeakPeriod) (hour : ℤ) : Bool :=
  periods.any fun p => decide ((p.start_hour : ℤ) ≤ hour ∧ hour ≤ (p.end_hour : ℤ))

/-- Round half to even (`np.round` / `DataFrame.round` semantics) on ℚ. -/
def round_half_even_q (x : ℚ) : ℤ :=
  if Int.fract x = 1 / 2 then (if ⌊x⌋ % 2 = 0 then ⌊x⌋ else ⌊x⌋ + 1)
  else ⌊x + 1 / 2⌋

/-- Model of the `round(2)` applied by `export_band_comparison` to each aggregate. -/
def roundq2 (x : ℚ) : ℚ := (round_half_even_q (x * 100) : ℚ) / 100

section
open Classical

/-- Round half to even on ℝ, for the rounded standard-deviation column. -/
noncomputable def round_half_even_r (x : ℝ) : ℤ :=
  if Int.fract x = 1 / 2 then (if ⌊x⌋ % 2 = 0 then ⌊x⌋ else ⌊x⌋ + 1)
  else ⌊x + 1 / 2⌋

/-- Model of `round(2)` on ℝ. -/
noncomputable def round2R (x : ℝ) : ℝ := (round_half_even_r (x * 100) : ℝ) / 100

/-- The `sinr_mean` column of `DataLogger.export_band_comparison`
(`data_logger.py` lines 193-219): per-band mean SINR over the whole log,
rounded to two decimals.  No peak-hour filtering is applied. -/
def sinr_mean_col (rows : List Row) (b : String) : ℚ :=
  roundq2 (meanQ ((rows.filter fun r => r.band = b).map fun r => r.sinr))

/-- Sample variance (pandas `std` uses `ddof=1`); meaningful only for lists
with at least two elements. -/
def sample_variance (xs : List ℚ) : ℚ :=
  (xs.map fun x => (x - meanQ xs) ^ 2).sum / ((xs.length : ℚ) - 1)

/-- The `bandwidth_score_std` column of `export_band_comparison`: sample
standard deviation of the bandwidth scores of the band, rounded to two decimals;
`none` models the `NaN` pandas produces for a single-element group. -/
noncomputable def bandwidth_score_std_col (rows : List Row) (b : String) :
    Option ℝ :=
  let xs := bandScores rows b
  if 2 ≤ xs.length then some (round2R (Real.sqrt ((sample_variance xs : ℚ) : ℝ)))
  else none

/-- Model of `Series.idxmin` with `NaN` entries skipped (`skipna`); `none` when every
entry is `NaN`, in which case the except clause of the caller swallows the error
and no command is issued. -/
noncomputable def argminOptBy {α : Type} (f : α → Option ℝ) (l : List α) :
    Option α :=
  l.foldl
    (fun acc a =>
      match f a with
      | none => acc
      | some v =>
        match acc with
        | none => some a
        | some b =>
          match f b with
          | none => some a
          | some w => if v < w then some a else some b)
    none

end

/-- Model of `AIAutomationAgent._switch_to_peak_optimized_band` (`ai_agent.py` lines
338-356): no-op when the export is empty; otherwise take `idxmax` of the
`sinr_mean` column and issue one band-set command when the winner is truthy
and differs from the current band. -/
def switch_to_peak_optimized_band (rows : List Row) (current : Option String) :
    List String :=
  if (groupKeys rows).isEmpty then []
  else
    match argmaxBy (sinr_mean_col rows) (groupKeys rows) with
    | none => []
    | some best => if best ≠ "" ∧ some best ≠ current then [best] else []

/-- Model of `AIAutomationAgent._switch_to_stability_optimized_band` (`ai_agent.py`
lines 389-407): no-op when the export is empty; otherwise take `idxmin` of
the `bandwidth_score_std` column and issue one band-set command when the
winner is truthy and differs from the current band. -/
noncomputable def switch_to_stability_optimized_band (rows : List Row)
    (current : Option String) : List String :=
  if (groupKeys rows).isEmpty then []
  else
    match argminOptBy (bandwidth_score_std_col rows) (groupKeys rows) with
    | none => []
    | some best => if best ≠ "" ∧ some best ≠ current then [best] else []

/-- Model of `AIAutomationAgent.optimize_for_peak_hours` (`ai_agent.py` lines
306-336): peak hours select the bandwidth-optimized branch, off-peak hours
the stability branch.  The result lists the band-set commands issued. -/
noncomputable def optimize_for_peak_hours (periods : List PeakPeriod)
    (now : ℤ) (rows : List Row) (current : Option String) : List String :=
  if is_peak_hour periods (hourOf now) then
    switch_to_peak_optimized_band rows current
  else
    switch_to_stability_optimized_band rows current

/-- The peak-hour set used by `_analyze_band_performance` (`ai_agent.py`
line 141): morning and evening peak hours. -/
def peak_hours_list : List ℤ := [7, 8, 9, 17, 18, 19]

/-- Follows the words of the spec and of claim C4 (not the code): the mean
SINR of a band restricted to peak-hour samples.  Used to compare the claimed
peak-hour selection criterion with the one the code implements. -/
def peak_hour_sinr_mean (rows : List Row) (b : String) : ℚ :=
  meanQ ((rows.filter fun r =>
    r.band = b ∧ hourOf r.timestamp ∈ peak_hours_list).map fun r => r.sinr)

/-! ## Band analyzer (`ai_agent.py` lines 116-157) -/

/-- Whether a sample falls in a peak hour (`m.timestamp.hour in peak_hours`). -/
def is_peak_sample (m : SignalMetrics) : Bool :=
  decide (hourOf m.timestamp ∈ peak_hours_list)

/-- Mean of a list of reals (`np.mean`). -/
noncomputable def meanR (xs : List ℝ) : ℝ := xs.sum / xs.length

/-- Population standard deviation (`np.std`, `ddof=0`): square root of the
mean squared deviation. -/
noncomputable def pop_std (xs : List ℝ) : ℝ :=
  Real.sqrt (meanR (xs.map fun x => (x - meanR xs) ^ 2))

/-- The per-sample bandwidth scores recomputed inline by
`_analyze_band_performance` (`ai_agent.py` lines 127-133), over ℝ. -/
noncomputable def bandwidth_scores_real (ms : List SignalMetrics) : List ℝ :=
  ms.map fun m =>
    max 0 (min 1 (((m.sinr : ℝ) + 10) / 30)) * 0.7 +
      max 0 (min 1 (((m.rsrp : ℝ) + 140) / 60)) * 0.3

/-- The `BandPerformance` dataclass (`ai_agent.py` lines 26-36). -/
structure BandPerformance where
  band : String
  avg_rsrp : ℝ
  avg_rsrq : ℝ
  avg_sinr : ℝ
  avg_bandwidth_score : ℝ
  stability_score : ℝ
  peak_performance : ℝ
  off_peak_performance : ℝ

/-- Model of `AIAutomationAgent._analyze_band_performance` (`ai_agent.py` lines
116-157): all-zero record for an empty sample list; otherwise means of the
raw metrics, mean bandwidth score, `1 - np.std(bandwidth_scores)` as the
stability score, and mean SINR over the peak-hour and off-peak sample
subsets, each defaulting to `0` when the subset is empty. -/
noncomputable def analyze_band_performance (band : String)
    (ms : List SignalMetrics) : BandPerformance :=
  if ms.isEmpty then ⟨band, 0, 0, 0, 0, 0, 0, 0⟩
  else
    let bws := bandwidth_scores_real ms
    let peakMs := ms.filter is_peak_sample
    let offMs := ms.filter fun m => ! is_peak_sample m
    ⟨band,
      meanR (ms.map fun m => (m.rsrp : ℝ)),
      meanR (ms.map fun m => (m.rsrq : ℝ)),
      meanR (ms.map fun m => (m.sinr : ℝ)),
      meanR bws,
      1 - pop_std bws,
      if peakMs.isEmpty then 0 else meanR (peakMs.map fun m => (m.sinr : ℝ)),
      if offMs.isEmpty then 0 else meanR (offMs.map fun m => (m.sinr : ℝ))⟩

/-! ## Persisted logger state (`data_logger.py` lines 43-90, 134-154, 221-238) -/

/-- The two persisted representations: the flat CSV rows and the structured
JSON array.  `json = none` models a file whose content does not parse as
JSON (the state claim C10 is about); a missing file behaves like `some []`. -/
structure LoggerState where
  csv : List Row
  json : Option (List Row)

/-- Model of `DataLogger._append_to_json` (`data_logger.py` lines 134-154): read the
file, fall back to the empty list when it does not parse
(`json.JSONDecodeError`), append the record, write everything back. -/
def append_to_json (j : Option (List Row)) (r : Row) : Option (List Row) :=
  some (j.getD [] ++ [r])

/-- Model of `DataLogger.log_metrics` (`data_logger.py` lines 43-90): compute the
derived columns, append the row to the CSV, append the record to the JSON
mirror, report success. -/
def log_metrics (s : LoggerState) (m : SignalMetrics) : LoggerState × Bool :=
  (⟨s.csv ++ [logRow m], append_to_json s.json (logRow m)⟩, true)

/-- The CSV header written by `_init_csv_file` (`data_logger.py` lines
31-41). -/
def csv_headers : List String :=
  ["timestamp", "band", "rsrp", "rsrq", "sinr", "rssi",
   "cell_id", "plmn", "signal_quality", "bandwidth_score"]

/-- A persisted log file: its header line and its data rows. -/
structure LogFile where
  header : List String
  rows : List Row
deriving DecidableEq, Repr

/-- The log file plus its backup location (`f"{file_path}.backup"`). -/
structure FileState where
  log : LogFile
  backup : Option LogFile
deriving DecidableEq, Repr

/-- Model of `DataLogger.cleanup_old_logs` (`data_logger.py` lines 221-238) for the
CSV log: when `size_mb = bytes / (1024 * 1024)` exceeds `max_size_mb`, the
file is renamed to the backup path and `_init_csv_file` recreates an empty
log with the standard header; otherwise nothing happens.  `sizeBytes` is
the file-system function `os.path.getsize`. -/
def cleanup_old_logs (sizeBytes : LogFile → ℕ) (max_size_mb : ℕ)
    (s : FileState) : FileState :=
  if (sizeBytes s.log : ℚ) / (1024 * 1024) > (max_size_mb : ℚ) then
    ⟨⟨csv_headers, []⟩, some s.log⟩
  else s

/-- Follows the words of the spec and of claim C7 (not the code): the
samples whose timestamp lies within the closed window
`[now - window, now]`.  The source filters only by the lower bound. -/
def spec_window_rows (rows : List Row) (now : ℤ) (hours : ℕ) : List Row :=
  rows.filter fun r => cutoffTime now hours ≤ r.timestamp ∧ r.timestamp ≤ now

/-! ## Helper lemmas about `idxmax` -/

lemma foldl_maxStep_mem {α : Type} (f : α → ℚ) :
    ∀ (xs : List α) (x : α),
      xs.foldl (maxStep f) x = x ∨ xs.foldl (maxStep f) x ∈ xs := by
  intro xs
  induction xs with
  | nil => intro x; left; rfl
  | cons a as ih =>
    intro x
    rw [List.foldl_cons]
    by_cases hc : f x < f a
    · have hstep : maxStep f x a = a := by unfold maxStep; rw [if_pos hc]
      rw [hstep]
      rcases ih a with h | h
      · right; rw [h]; exact List.mem_cons_self a as
      · right; exact List.mem_cons_of_mem a h
    · have hstep : maxStep f x a = x := by unfold maxStep; rw [if_neg hc]
      rw [hstep]
      rcases ih x with h | h
      · left; exact h
      · right; exact List.mem_cons_of_mem a h

lemma f_le_maxStep_left {α : Type} (f : α → ℚ) (b a : α) :
    f b ≤ f (maxStep f b a) := by
  unfold maxStep
  by_cases hc : f b < f a
  · rw [if_pos hc]; exact le_of_lt hc
  · rw [if_neg hc]

lemma f_le_maxStep_right {α : Type} (f : α → ℚ) (b a : α) :
    f a ≤ f (maxStep f b a) := by
  unfold maxStep
  by_cases hc : f b < f a
  · rw [if_pos hc]
  · rw [if_neg hc]; exact le_of_not_lt hc

lemma le_foldl_maxStep {α : Type} (f : α → ℚ) :
    ∀ (xs : List α) (x y : α), (y = x ∨ y ∈ xs) →
      f y ≤ f (xs.foldl (maxStep f) x) := by
  intro xs
  induction xs with
  | nil =>
    intro x y h
    rcases h with h | h
    · subst h; exact le_refl _
    · cases h
  | cons a as ih =>
    intro x y h
    rw [List.foldl_cons]
    rcases h with h | h
    · subst h
      exact le_trans (f_le_maxStep_left f y a) (ih (maxStep f y a) _ (Or.inl rfl))
    · rcases List.mem_cons.mp h with h | h
      · subst h
        exact le_trans (f_le_maxStep_right f x y) (ih (maxStep f x y) _ (Or.inl rfl))
      · exact ih (maxStep f x a) y (Or.inr h)

/-- Key property of `idxmax`: it returns the unique strict maximizer when
there is one. -/
lemma argmaxBy_eq_of_forall_lt {α : Type} (f : α → ℚ) (l : List α) (B : α)
    (hB : B ∈ l) (huniq : ∀ b ∈ l, b ≠ B → f b < f B) :
    argmaxBy f l = some B := by
  cases l with
  | nil => cases hB
  | cons x xs =>
    suffices h : xs.foldl (maxStep f) x = B by
      rw [show argmaxBy f (x :: xs) = some (xs.foldl (maxStep f) x) from rfl, h]
    have hle : f B ≤ f (xs.foldl (maxStep f) x) := by
      apply le_foldl_maxStep
      rcases List.mem_cons.mp hB with h | h
      · exact Or.inl h
      · exact Or.inr h
    by_contra hne
    have hmem : xs.foldl (maxStep f) x ∈ x :: xs := by
      rcases foldl_maxStep_mem f xs x with h | h
      · rw [h]; exact List.mem_cons_self x xs
      · exact List.mem_cons_of_mem x h
    exact absurd hle (not_le.mpr (huniq _ hmem hne))

/-! ## Clamp lemmas -/

lemma clamp01_nonneg (x : ℚ) : 0 ≤ clamp01 x := le_max_left 0 _

lemma clamp01_le_one (x : ℚ) : clamp01 x ≤ 1 := by
  unfold clamp01
  exact max_le (by norm_num) (min_le_left 1 x)

lemma clamp01_mono {x y : ℚ} (h : x ≤ y) : clamp01 x ≤ clamp01 y := by
  unfold clamp01
  exact max_le_max (le_refl 0) (min_le_min (le_refl 1) h)

/-! ## Claim theorems -/

/-- C2: `bandwidthScore(sinr, rsrp)` equals
`0.7 * clamp01((sinr+10)/30) + 0.3 * clamp01((rsrp+140)/60)`; it always lies
in `[0, 1]`; it is monotonically non-decreasing in both arguments; and
`bandwidthScore(20, -60) = bandwidthScore(20, -50)` because the RSRP term
saturates. -/
theorem c2_bandwidth_score_clamped_monotone (sinr rsrp sinr2 rsrp2 : ℚ)
    (hs : sinr ≤ sinr2) (hr : rsrp ≤ rsrp2) :
    calculate_bandwidth_score sinr rsrp
        = 0.7 * clamp01 ((sinr + 10) / 30) + 0.3 * clamp01 ((rsrp + 140) / 60) ∧
    0 ≤ calculate_bandwidth_score sinr rsrp ∧
    calculate_bandwidth_score sinr rsrp ≤ 1 ∧
    calculate_bandwidth_score sinr rsrp ≤ calculate_bandwidth_score sinr2 rsrp2 ∧
    calculate_bandwidth_score 20 (-60) = calculate_bandwidth_score 20 (-50) := by
  have key : ∀ a b : ℚ,
      calculate_bandwidth_score a b
        = 0.7 * clamp01 ((a + 10) / 30) + 0.3 * clamp01 ((b + 140) / 60) := by
    intro a b
    unfold calculate_bandwidth_score clamp01
    ring
  refine ⟨key sinr rsrp, ?_, ?_, ?_, ?_⟩
  · rw [key]
    have h1 := clamp01_nonneg ((sinr + 10) / 30)
    have h2 := clamp01_nonneg ((rsrp + 140) / 60)
    linarith
  · rw [key]
    have h1 := clamp01_le_one ((sinr + 10) / 30)
    have h2 := clamp01_le_one ((rsrp + 140) / 60)
    linarith
  · rw [key, key]
    have h1 : clamp01 ((sinr + 10) / 30) ≤ clamp01 ((sinr2 + 10) / 30) := by
      apply clamp01_mono
      gcongr
    have h2 : clamp01 ((rsrp + 140) / 60) ≤ clamp01 ((rsrp2 + 140) / 60) := by
      apply clamp01_mono
      gcongr
    linarith
  · unfold calculate_bandwidth_score
    norm_num [min_def, max_def]

/-- Witness for C2 at `(sinr, rsrp) = (0, -100) ≤ (1, -90)`. -/
theorem c2_witness :
    calculate_bandwidth_score 0 (-100) ≤ calculate_bandwidth_score 1 (-90) :=
  (c2_bandwidth_score_clamped_monotone 0 (-100) 1 (-90) (by norm_num)
    (by norm_num)).2.2.2.1

/-- C5: the quality score is
`0.4*max(0,(rsrp+140)/60) + 0.3*max(0,(rsrq+25)/15) + 0.3*max(0,(sinr+10)/30)`
with only the lower bound clamped, and the derived class is excellent iff
the score is at least `0.8`, good iff it is in `[0.6, 0.8)`, fair iff in
`[0.4, 0.6)`, poor otherwise; a score of exactly `0.8` is excellent,
`0.7999` is good, `0.0` is poor. -/
theorem c5_quality_score_classification (rsrp rsrq sinr q : ℚ) :
    calculate_signal_quality rsrp rsrq sinr = classify (quality_score rsrp rsrq sinr) ∧
    quality_score rsrp rsrq sinr
        = 0.4 * max 0 ((rsrp + 140) / 60) + 0.3 * max 0 ((rsrq + 25) / 15) +
            0.3 * max 0 ((sinr + 10) / 30) ∧
    (classify q = .excellent ↔ 0.8 ≤ q) ∧
    (classify q = .good ↔ 0.6 ≤ q ∧ q < 0.8) ∧
    (classify q = .fair ↔ 0.4 ≤ q ∧ q < 0.6) ∧
    (classify q = .poor ↔ q < 0.4) ∧
    classify 0.8 = .excellent ∧ classify 0.7999 = .good ∧ classify 0 = .poor := by
  refine ⟨rfl, by unfold quality_score; ring, ?_, ?_, ?_, ?_, ?_, ?_, ?_⟩
  · unfold classify
    split_ifs with h1 h2 h3 <;> simp <;> linarith
  · unfold classify
    split_ifs with h1 h2 h3 <;> simp <;>
      first
        | (intro h; linarith)
        | (exact ⟨by linarith, by linarith⟩)
  · unfold classify
    split_ifs with h1 h2 h3 <;> simp <;>
      first
        | (intro h; linarith)
        | (exact ⟨by linarith, by linarith⟩)
  · unfold classify
    split_ifs with h1 h2 h3 <;> simp <;> linarith
  · unfold classify
    norm_num
  · unfold classify
    norm_num
  · unfold classify
    norm_num

/-- C3: when auto-switch is disabled, a sample never triggers the smart
switch; when enabled, an empty 1-hour summary makes the check a no-op, and
otherwise the smart switch is triggered iff the bandwidth score of the sample is
strictly below the historical mean bandwidth score times the degradation
threshold (0.8 by default). -/
theorem c3_degradation_gate (auto_switch_enabled : Bool) (rows : List Row)
    (now : ℤ) (m : SignalMetrics) :
    (auto_switch_enabled = false →
      onSample auto_switch_enabled rows now m = false) ∧
    ((get_metrics_summary rows now 1).isSome = false →
      onSample auto_switch_enabled rows now m = false) ∧
    (auto_switch_enabled = true → (get_metrics_summary rows now 1).isSome = true →
      (onSample auto_switch_enabled rows now m = true ↔
        calculate_current_score m
          < avg_of (get_metrics_summary rows now 1) * auto_switch_threshold)) := by
  refine ⟨?_, ?_, ?_⟩
  · intro h
    rw [h]
    rfl
  · intro h
    unfold onSample check_band_switch
    cases hgms : get_metrics_summary rows now 1 with
    | none => simp
    | some s => rw [hgms] at h; simp at h
  · intro hauto hsome
    rw [hauto]
    unfold onSample check_band_switch
    cases hgms : get_metrics_summary rows now 1 with
    | none => rw [hgms] at hsome; simp at hsome
    | some s =>
      simp [avg_of]

/-- Witness for C3: a single healthy history row and a fully degraded
current sample trigger the smart switch when auto-switch is enabled. -/
theorem c3_witness :
    (get_metrics_summary [logRow ⟨0, "B3", -85, -12, 15, -60, "1", "0"⟩] 0 1).isSome
        = true ∧
    onSample true [logRow ⟨0, "B3", -85, -12, 15, -60, "1", "0"⟩] 0
        ⟨0, "B3", -140, -25, -10, -60, "1", "0"⟩ = true := by
  have hsome :
      (get_metrics_summary [logRow ⟨0, "B3", -85, -12, 15, -60, "1", "0"⟩] 0 1).isSome
        = true := by decide
  refine ⟨hsome, ?_⟩
  apply (c3_degradation_gate true
    [logRow ⟨0, "B3", -85, -12, 15, -60, "1", "0"⟩] 0
    ⟨0, "B3", -140, -25, -10, -60, "1", "0"⟩).2.2 rfl hsome |>.mpr
  show calculate_current_score _ < avg_of _ * auto_switch_threshold
  simp only [calculate_current_score, avg_of, auto_switch_threshold,
    get_metrics_summary, recentRows, cutoffTime, logRow, List.filter_cons,
    List.filter_nil, calculate_bandwidth_score, meanQ]
  norm_num

/-- The C1 scenario sample for band B3: `SINR=15`, `RSRP=-85`. -/
def c1_sample_b3 : SignalMetrics := ⟨0, "B3", -85, -12, 15, -60, "1", "0"⟩

/-- The C1 scenario sample for band B7: `SINR=5`, `RSRP=-100`. -/
def c1_sample_b7 : SignalMetrics := ⟨0, "B7", -100, -12, 5, -60, "1", "0"⟩

/-- The C1 scenario history: ten logged samples per band. -/
def c1_history : List Row :=
  List.replicate 10 (logRow c1_sample_b3) ++ List.replicate 10 (logRow c1_sample_b7)

/-- C1: over a 6-hour history whose per-band mean bandwidth scores have a
unique maximum at band `B`, `_smart_band_switch` reports `B` as the best
performing band; when `B` differs from the currently reported band it issues
exactly one band-set command for `B`, and when it coincides it issues none. -/
theorem c1_smart_switch_selects_best (rows : List Row) (now : ℤ)
    (current : Option String) (B : String)
    (hne : (recentRows rows now 6).isEmpty = false)
    (hmem : B ∈ groupKeys (recentRows rows now 6))
    (hB : B ≠ "")
    (huniq : ∀ b ∈ groupKeys (recentRows rows now 6), b ≠ B →
      bandMean (recentRows rows now 6) b < bandMean (recentRows rows now 6) B) :
    best_of (get_metrics_summary rows now 6) = B ∧
    (some B ≠ current → smart_band_switch rows now current = [B]) ∧
    (some B = current → smart_band_switch rows now current = []) := by
  have hbest := argmaxBy_eq_of_forall_lt (bandMean (recentRows rows now 6))
    (groupKeys (recentRows rows now 6)) B hmem huniq
  have hiss : (get_metrics_summary rows now 6).isSome = true := by
    unfold get_metrics_summary
    simp [hne]
  obtain ⟨s, hs⟩ := Option.isSome_iff_exists.mp hiss
  have hsum : best_of (get_metrics_summary rows now 6) = B := by
    unfold get_metrics_summary best_of
    simp [hne, hbest]
  have hbp : s.best_performing_band = B := by
    rw [hs] at hsum
    simpa [best_of] using hsum
  refine ⟨hsum, ?_, ?_⟩
  · intro hcur
    unfold smart_band_switch
    rw [hs]
    simp only [hbp]
    rw [if_pos ⟨hB, hcur⟩]
  · intro hcur
    unfold smart_band_switch
    rw [hs]
    simp only [hbp]
    rw [if_neg]
    intro hcontra
    exact hcontra.2 hcur

/-- Witness for C1: on the scenario history (ten `B3` samples at
`SINR=15, RSRP=-85`, ten `B7` samples at `SINR=5, RSRP=-100`) with current
band `B7`, the switch issues exactly one `set_lte_band("B3")` command. -/
theorem c1_witness :
    best_of (get_metrics_summary c1_history 0 6) = "B3" ∧
    smart_band_switch c1_history 0 (some "B7") = ["B3"] := by
  have huniq : ∀ b ∈ groupKeys (recentRows c1_history 0 6), b ≠ "B3" →
      bandMean (recentRows c1_history 0 6) b
        < bandMean (recentRows c1_history 0 6) "B3" := by
    intro b hb hbne
    have hkeys : groupKeys (recentRows c1_history 0 6) = ["B3", "B7"] := by decide
    have hrec : recentRows c1_history 0 6 = c1_history := rfl
    rw [hkeys] at hb
    simp only [List.mem_cons, List.mem_singleton, List.not_mem_nil] at hb
    rcases hb with hb | hb | hb
    · exact absurd hb hbne
    · subst hb
      rw [hrec]
      have e3 : bandScores c1_history "B3"
          = List.replicate 10 (calculate_bandwidth_score 15 (-85)) := rfl
      have e7 : bandScores c1_history "B7"
          = List.replicate 10 (calculate_bandwidth_score 5 (-100)) := rfl
      unfold bandMean
      rw [e3, e7]
      unfold meanQ
      rw [List.sum_replicate, List.sum_replicate, List.length_replicate,
        List.length_replicate, nsmul_eq_mul, nsmul_eq_mul]
      push_cast
      rw [mul_div_cancel_left₀ _ (by norm_num : (10 : ℚ) ≠ 0),
        mul_div_cancel_left₀ _ (by norm_num : (10 : ℚ) ≠ 0)]
      norm_num [calculate_bandwidth_score, min_def, max_def]
    · cases hb
  have h := c1_smart_switch_selects_best c1_history 0 (some "B7") "B3"
    (by decide) (by decide) (by decide) huniq
  exact ⟨h.1, h.2.1 (by decide)⟩

/-- C7 (amended): the summary scans exactly the rows with
`timestamp >= now - window` (rows strictly before the cutoff are excluded,
and no upper bound at `now` is applied); when all `N` appended samples lie
at or after the cutoff the record count is `N`; and when zero samples match
the result is the explicit empty value, not an error. -/
theorem c7_summary_window_lower_bounded (rows : List Row) (now : ℤ)
    (hours : ℕ) :
    ((recentRows rows now hours).isEmpty = true →
      get_metrics_summary rows now hours = none) ∧
    ((recentRows rows now hours).isEmpty = false →
      (get_metrics_summary rows now hours).isSome = true ∧
      total_of (get_metrics_summary rows now hours)
        = (recentRows rows now hours).length) ∧
    ((∀ r ∈ rows, cutoffTime now hours ≤ r.timestamp) → rows ≠ [] →
      total_of (get_metrics_summary rows now hours) = rows.length) := by
  refine ⟨?_, ?_, ?_⟩
  · intro h
    unfold get_metrics_summary
    simp [h]
  · intro h
    unfold get_metrics_summary total_of
    simp [h]
  · intro hall hne
    have hrec : recentRows rows now hours = rows := by
      unfold recentRows
      apply List.filter_eq_self.mpr
      intro a ha
      exact decide_eq_true (hall a ha)
    have hni : (recentRows rows now hours).isEmpty = false := by
      rw [hrec]
      cases rows with
      | nil => exact absurd rfl hne
      | cons a as => rfl
    unfold get_metrics_summary total_of
    simp [hni, hrec, hne]

/-- Witness for C7 (amended): one sample inside the window gives count 1. -/
theorem c7_witness :
    total_of (get_metrics_summary
      [logRow ⟨0, "B3", -85, -12, 15, -60, "1", "0"⟩] 0 1) = 1 :=
  (c7_summary_window_lower_bounded
      [logRow ⟨0, "B3", -85, -12, 15, -60, "1", "0"⟩] 0 1).2.2
    (by decide) (by decide)

/-- Counterexample for C7 as stated: a sample with timestamp strictly after
`now` lies outside the claimed window `[now - window, now]`, yet the summary
counts it, because the source filters only by the lower bound. -/
theorem c7_counterexample :
    total_of (get_metrics_summary
      [logRow ⟨7200, "B3", -85, -12, 15, -60, "1", "0"⟩] 0 1) = 1 ∧
    spec_window_rows
      [logRow ⟨7200, "B3", -85, -12, 15, -60, "1", "0"⟩] 0 1 = [] := by
  refine ⟨by decide, by decide⟩

/-- C8 (amended): a successful append pushes the same record onto both
persisted representations, and when the structured JSON mirror was parseable
and agreed with the CSV before the append, the two representations reflect
the same sample set afterwards. -/
theorem c8_dual_representation_append (s : LoggerState) (m : SignalMetrics) :
    (log_metrics s m).2 = true ∧
    (log_metrics s m).1.csv = s.csv ++ [logRow m] ∧
    (log_metrics s m).1.json = some (s.json.getD [] ++ [logRow m]) ∧
    (s.json = some s.csv →
      (log_metrics s m).1.json = some ((log_metrics s m).1.csv)) := by
  refine ⟨rfl, rfl, rfl, ?_⟩
  intro h
  unfold log_metrics append_to_json
  rw [h]
  rfl

/-- Witness for C8 (amended): starting from agreeing representations, an
append keeps them in agreement. -/
theorem c8_witness :
    (log_metrics ⟨[], some []⟩ ⟨0, "B3", -85, -12, 15, -60, "1", "0"⟩).1.json
      = some ((log_metrics ⟨[], some []⟩
          ⟨0, "B3", -85, -12, 15, -60, "1", "0"⟩).1.csv) :=
  (c8_dual_representation_append ⟨[], some []⟩
    ⟨0, "B3", -85, -12, 15, -60, "1", "0"⟩).2.2.2 rfl

/-- Counterexample for C8 as stated: when the JSON mirror is unparseable the
append still reports success, but afterwards the two representations hold
different sample sets (the CSV has two rows, the JSON only the new one). -/
theorem c8_counterexample :
    (log_metrics ⟨[logRow ⟨0, "B7", -100, -12, 5, -60, "1", "0"⟩], none⟩
        ⟨5, "B3", -85, -12, 15, -60, "1", "0"⟩).2 = true ∧
    (log_metrics ⟨[logRow ⟨0, "B7", -100, -12, 5, -60, "1", "0"⟩], none⟩
        ⟨5, "B3", -85, -12, 15, -60, "1", "0"⟩).1.json
      ≠ some ((log_metrics ⟨[logRow ⟨0, "B7", -100, -12, 5, -60, "1", "0"⟩], none⟩
          ⟨5, "B3", -85, -12, 15, -60, "1", "0"⟩).1.csv) := by
  refine ⟨rfl, by decide⟩

/-- C9: when the persisted log strictly exceeds the size threshold,
`cleanup_old_logs` performs exactly one rotation — the log moves to the
backup location, an empty log with the standard header is recreated (so
the post-rotation record count restarts from zero) and the pre-rotation data
stays recoverable from the backup; at or below the threshold nothing
happens. -/
theorem c9_rotation (sizeBytes : LogFile → ℕ) (max_size_mb : ℕ)
    (s : FileState) :
    ((sizeBytes s.log : ℚ) / (1024 * 1024) > (max_size_mb : ℚ) →
      cleanup_old_logs sizeBytes max_size_mb s = ⟨⟨csv_headers, []⟩, some s.log⟩ ∧
      (cleanup_old_logs sizeBytes max_size_mb s).log.rows = [] ∧
      (cleanup_old_logs sizeBytes max_size_mb s).backup = some s.log ∧
      (s.log.header = csv_headers →
        (cleanup_old_logs sizeBytes max_size_mb s).log.header = s.log.header)) ∧
    (¬ (sizeBytes s.log : ℚ) / (1024 * 1024) > (max_size_mb : ℚ) →
      cleanup_old_logs sizeBytes max_size_mb s = s) := by
  constructor
  · intro h
    unfold cleanup_old_logs
    rw [if_pos h]
    refine ⟨rfl, rfl, rfl, ?_⟩
    intro hh
    rw [hh]
  · intro h
    unfold cleanup_old_logs
    rw [if_neg h]

/-- Witness for C9: a ten-row log at 1.1 MB per row exceeds the 10 MB
threshold and rotates; the empty log does not. -/
theorem c9_witness :
    cleanup_old_logs (fun f => f.rows.length * 1100000) 10
        ⟨⟨csv_headers, List.replicate 10 (logRow ⟨0, "B1", -90, -12, 10, -60, "1", "0"⟩)⟩,
          none⟩
      = ⟨⟨csv_headers, []⟩,
          some ⟨csv_headers,
            List.replicate 10 (logRow ⟨0, "B1", -90, -12, 10, -60, "1", "0"⟩)⟩⟩ ∧
    cleanup_old_logs (fun f => f.rows.length * 1100000) 10 ⟨⟨csv_headers, []⟩, none⟩
      = ⟨⟨csv_headers, []⟩, none⟩ := by
  constructor
  · exact ((c9_rotation (fun f => f.rows.length * 1100000) 10 _).1
      (by norm_num [List.length_replicate])).1
  · exact (c9_rotation (fun f => f.rows.length * 1100000) 10 _).2
      (by norm_num)

/-- C10: when the structured JSON log state is unparseable, the next append
discards every previously persisted structured record — the data resets to
the empty list before the new record is appended and written back — while
the append still reports success (and the CSV keeps growing). -/
theorem c10_corrupt_json_resets (s : LoggerState) (m : SignalMetrics)
    (h : s.json = none) :
    (log_metrics s m).2 = true ∧
    (log_metrics s m).1.json = some [logRow m] ∧
    (log_metrics s m).1.csv = s.csv ++ [logRow m] := by
  refine ⟨rfl, ?_, rfl⟩
  unfold log_metrics append_to_json
  rw [h]
  rfl

/-- Witness for C10: a corrupted mirror holding one CSV row loses it on the
next append, which still succeeds. -/
theorem c10_witness :
    (log_metrics ⟨[logRow ⟨0, "B7", -100, -12, 5, -60, "1", "0"⟩], none⟩
        ⟨5, "B3", -85, -12, 15, -60, "1", "0"⟩).1.json
      = some [logRow ⟨5, "B3", -85, -12, 15, -60, "1", "0"⟩] ∧
    (log_metrics ⟨[logRow ⟨0, "B7", -100, -12, 5, -60, "1", "0"⟩], none⟩
        ⟨5, "B3", -85, -12, 15, -60, "1", "0"⟩).2 = true :=
  ⟨(c10_corrupt_json_resets ⟨[logRow ⟨0, "B7", -100, -12, 5, -60, "1", "0"⟩], none⟩
      ⟨5, "B3", -85, -12, 15, -60, "1", "0"⟩ rfl).2.1,
    (c10_corrupt_json_resets ⟨[logRow ⟨0, "B7", -100, -12, 5, -60, "1", "0"⟩], none⟩
      ⟨5, "B3", -85, -12, 15, -60, "1", "0"⟩ rfl).1⟩

/-- C6: for a non-empty sample list the stability score of the analyzer is
exactly `1` minus the population standard deviation of the per-sample
bandwidth scores (no clamp is applied), peak and off-peak performance are
the mean SINR over the samples whose hour-of-day is in `{7,8,9,17,18,19}`
and over the remaining samples, each defaulting to `0` for an empty subset;
the empty sample list yields the all-zero record and never an error. -/
theorem c6_band_analyzer (band : String) (ms : List SignalMetrics)
    (h : ms ≠ []) :
    (analyze_band_performance band ms).stability_score
        = 1 - Real.sqrt (meanR ((bandwidth_scores_real ms).map
            fun x => (x - meanR (bandwidth_scores_real ms)) ^ 2)) ∧
    (analyze_band_performance band ms).peak_performance
        = (if (ms.filter is_peak_sample).isEmpty then 0
           else meanR ((ms.filter is_peak_sample).map fun m => (m.sinr : ℝ))) ∧
    (analyze_band_performance band ms).off_peak_performance
        = (if (ms.filter fun m => ! is_peak_sample m).isEmpty then 0
           else meanR ((ms.filter fun m => ! is_peak_sample m).map
             fun m => (m.sinr : ℝ))) ∧
    analyze_band_performance band [] = ⟨band, 0, 0, 0, 0, 0, 0, 0⟩ := by
  have hni : ms.isEmpty = false := by
    cases ms with
    | nil => exact absurd rfl h
    | cons a as => rfl
  unfold analyze_band_performance pop_std
  simp [hni]

/-- Witness for C6: a single peak-hour sample has stability score `1`
(zero deviation) and peak performance equal to its SINR. -/
theorem c6_witness :
    (analyze_band_performance "B3"
        [⟨28800, "B3", -85, -12, 15, -60, "1", "0"⟩]).stability_score = 1 ∧
    (analyze_band_performance "B3"
        [⟨28800, "B3", -85, -12, 15, -60, "1", "0"⟩]).peak_performance = 15 := by
  have h := c6_band_analyzer "B3" [⟨28800, "B3", -85, -12, 15, -60, "1", "0"⟩]
    (by simp)
  constructor
  · rw [h.1]
    simp [bandwidth_scores_real, meanR]
  · rw [h.2.1]
    have hf : ([⟨28800, "B3", -85, -12, 15, -60, "1", "0"⟩] :
        List SignalMetrics).filter is_peak_sample
        = [⟨28800, "B3", -85, -12, 15, -60, "1", "0"⟩] := rfl
    rw [hf]
    simp [meanR]

/-- The C4 data: band `A` has the better peak-hour SINR (20 at hour 8
against 0 at hour 12), band `B` the better overall mean SINR (15 at both
hours). -/
def c4_rows : List Row :=
  [⟨28800, "A", -90, -12, 20, -60, "1", "0", .good, 1 / 2⟩,
   ⟨43200, "A", -90, -12, 0, -60, "1", "0", .good, 1 / 2⟩,
   ⟨28800, "B", -90, -12, 15, -60, "1", "0", .good, 1 / 2⟩,
   ⟨43200, "B", -90, -12, 15, -60, "1", "0", .good, 1 / 2⟩]

/-- C4 (code bug): at hour 8, inside the configured morning peak window,
the claimed criterion — highest mean peak-hour SINR — selects band `A`,
which is already the current band, so no switch should happen; the code
instead takes `idxmax` of the overall `sinr_mean` column of the export and
issues a band-set command for band `B`, contradicting its own inline
comment about peak-hour SINR. -/
theorem c4_peak_selection_code_bug :
    is_peak_hour default_peak_periods (hourOf 28800) = true ∧
    argmaxBy (peak_hour_sinr_mean c4_rows) (groupKeys c4_rows) = some "A" ∧
    optimize_for_peak_hours default_peak_periods 28800 c4_rows (some "A")
      = ["B"] := by
  have h8 : hourOf 28800 = 8 := by decide
  have h12 : hourOf 43200 = 12 := by decide
  have hkeys : groupKeys c4_rows = ["A", "B"] := by decide
  refine ⟨by decide, ?_, ?_⟩
  · apply argmaxBy_eq_of_forall_lt
    · rw [hkeys]
      exact List.mem_cons_self "A" ["B"]
    · intro b hb hbne
      rw [hkeys] at hb
      simp only [List.mem_cons, List.mem_singleton, List.not_mem_nil] at hb
      rcases hb with hb | hb | hb
      · exact absurd hb hbne
      · subst hb
        have eA : peak_hour_sinr_mean c4_rows "A" = (20 + 0) / ((1 : ℕ) : ℚ) := rfl
        have eB : peak_hour_sinr_mean c4_rows "B" = (15 + 0) / ((1 : ℕ) : ℚ) := rfl
        rw [eA, eB]
        norm_num
      · cases hb
  · have hpk : is_peak_hour default_peak_periods (hourOf 28800) = true := by decide
    have hround : ∀ x n : ℚ, x * 100 = n → Int.fract n = 0 → ⌊n + 1 / 2⌋ = ⌊n⌋ →
        roundq2 x = (⌊n⌋ : ℚ) / 100 := by
      intro x n hx hf hfl
      unfold roundq2 round_half_even_q
      rw [hx, hf]
      rw [if_neg (by norm_num)]
      rw [hfl]
    have eA : sinr_mean_col c4_rows "A" = 10 := by
      have h1 : sinr_mean_col c4_rows "A"
          = roundq2 ((20 + (0 + 0)) / ((2 : ℕ) : ℚ)) := rfl
      rw [h1, hround ((20 + (0 + 0)) / ((2 : ℕ) : ℚ)) 1000 (by norm_num)
        (by norm_num [Int.fract]) (by norm_num [Int.floor_eq_iff])]
      norm_num
    have eB : sinr_mean_col c4_rows "B" = 15 := by
      have h1 : sinr_mean_col c4_rows "B"
          = roundq2 ((15 + (15 + 0)) / ((2 : ℕ) : ℚ)) := rfl
      rw [h1, hround ((15 + (15 + 0)) / ((2 : ℕ) : ℚ)) 1500 (by norm_num)
        (by norm_num [Int.fract]) (by norm_num [Int.floor_eq_iff])]
      norm_num
    have hmax : argmaxBy (sinr_mean_col c4_rows) ["A", "B"] = some "B" := by
      unfold argmaxBy maxStep
      simp only [List.foldl_cons, List.foldl_nil, eA, eB]
      rw [if_pos (by norm_num : (10 : ℚ) < 15)]
    unfold optimize_for_peak_hours
    rw [if_pos hpk]
    unfold switch_to_peak_optimized_band
    rw [hkeys, hmax]
    simp

end LteAgent
